import Mathlib

/-!
Verification development for the Aviz NCP AI-agent MCP sandbox.

The repository exposes five mock network-operations tools behind an MCP
dispatch layer.  This file gives a shallow embedding of the tool handlers
(`predict_link_health`, `validate_build_metadata`, `remediate_link`,
`get_port_telemetry`), of the per-tool exception wrappers of
`mcp_server.py`, and of the protocol dispatcher described by the spec,
and proves the stated properties about them.

Modelling conventions:
* Python machine floats are modelled as exact rationals `ℚ`;
  Python `round(x, n)` (round half to even) is `pyRound`.
* The PyTorch health model is a module-level value fixed for the whole
  session; its forward pass is held abstract as a function
  `ℤ → ℤ → ℚ → ℚ` parameter (its final `Sigmoid` layer, which pins the
  output into `[0,1]`, enters theorems as an explicit range hypothesis).
* `random.randint` / `random.uniform` draws are modelled by explicit
  seed arguments describing the support of the distribution.
* A raised Python exception is an `Except.error` carrying `str(e)`.
-/

namespace Sandbox

/-- Round-half-to-even on a rational, the tie-breaking rule of Python's
built-in `round`. -/
def roundHalfEven (q : ℚ) : ℤ :=
  let f := ⌊q⌋
  let r := q - (f : ℚ)
  if r < 1/2 then f
  else if 1/2 < r then f + 1
  else if f % 2 = 0 then f else f + 1

/-- Python `round(q, n)`: round to `n` decimal places, half to even. -/
def pyRound (q : ℚ) (n : ℕ) : ℚ :=
  (roundHalfEven (q * (10 ^ n : ℚ)) : ℚ) / (10 ^ n : ℚ)

theorem floor_le_roundHalfEven (q : ℚ) : ⌊q⌋ ≤ roundHalfEven q := by
  unfold roundHalfEven
  dsimp only
  split
  · exact le_refl _
  · split
    · exact Int.le_add_one (le_refl _)
    · split
      · exact le_refl _
      · exact Int.le_add_one (le_refl _)

theorem roundHalfEven_le_ceil (q : ℚ) : roundHalfEven q ≤ ⌈q⌉ := by
  unfold roundHalfEven
  dsimp only
  have hfc : ⌊q⌋ ≤ ⌈q⌉ := Int.floor_le_ceil q
  have hstep : 1/2 ≤ q - (⌊q⌋ : ℚ) → ⌊q⌋ + 1 ≤ ⌈q⌉ := by
    intro h
    rw [Int.add_one_le_iff, Int.lt_ceil]
    have : (0 : ℚ) < 1/2 := by norm_num
    linarith
  split
  · exact hfc
  · next h1 =>
    split
    · next h2 => exact hstep (le_of_lt h2)
    · next h2 =>
      have heq : q - (⌊q⌋ : ℚ) = 1/2 := le_antisymm (le_of_not_lt h2) (le_of_not_lt h1)
      split
      · exact hfc
      · exact hstep (le_of_eq heq.symm)

theorem pyRound_le (q : ℚ) (n : ℕ) (M : ℤ) (h : q * (10 ^ n : ℚ) ≤ (M : ℚ)) :
    pyRound q n ≤ (M : ℚ) / (10 ^ n : ℚ) := by
  unfold pyRound
  have hp : (0 : ℚ) < (10 ^ n : ℚ) := by positivity
  apply div_le_div_of_nonneg_right _ (le_of_lt hp)
  have h1 : roundHalfEven (q * (10 ^ n : ℚ)) ≤ ⌈q * (10 ^ n : ℚ)⌉ :=
    roundHalfEven_le_ceil _
  have h2 : ⌈q * (10 ^ n : ℚ)⌉ ≤ M := Int.ceil_le.mpr h
  exact_mod_cast le_trans h1 h2

theorem le_pyRound (q : ℚ) (n : ℕ) (m : ℤ) (h : (m : ℚ) ≤ q * (10 ^ n : ℚ)) :
    (m : ℚ) / (10 ^ n : ℚ) ≤ pyRound q n := by
  unfold pyRound
  have hp : (0 : ℚ) < (10 ^ n : ℚ) := by positivity
  apply div_le_div_of_nonneg_right _ (le_of_lt hp)
  have h1 : m ≤ ⌊q * (10 ^ n : ℚ)⌋ := Int.le_floor.mpr h
  exact_mod_cast le_trans h1 (floor_le_roundHalfEven _)

/-- The `inputs` echo of `predict_link_health` (`src/agents/ai_agent.py`):
the error counts and utilization actually fed to the model. -/
structure PredictInputs where
  rx_errors : ℤ
  tx_errors : ℤ
  utilization : ℚ
deriving DecidableEq, Repr

/-- Success payload of `predict_link_health`. -/
structure PredictResult where
  health_score : ℚ
  status : String
  inputs : PredictInputs
deriving DecidableEq, Repr

/-- Shallow embedding of `predict_link_health` (`src/agents/ai_agent.py`).
`model` abstracts the fixed, module-level PyTorch `SimpleHealthModel`
forward pass (a pure function for the lifetime of the process); the
Python body clamps `utilization` to `[0,1]`, replaces the error counts
by their absolute values whenever either is negative, scores the
normalized triple, and rounds the score to three decimals. -/
def predict_link_health (model : ℤ → ℤ → ℚ → ℚ)
    (rx_errors tx_errors : ℤ) (utilization : ℚ) : PredictResult :=
  let u := if ¬ (0 ≤ utilization ∧ utilization ≤ 1)
           then max 0 (min 1 utilization) else utilization
  let rx := if rx_errors < 0 ∨ tx_errors < 0 then |rx_errors| else rx_errors
  let tx := if rx_errors < 0 ∨ tx_errors < 0 then |tx_errors| else tx_errors
  let score := model rx tx u
  { health_score := pyRound score 3
    status := if score > 7/10 then "healthy" else "warning"
    inputs := { rx_errors := rx, tx_errors := tx, utilization := u } }

theorem predict_norm_rx (rx tx : ℤ) :
    (if rx < 0 ∨ tx < 0 then |rx| else rx) = |rx| := by
  split
  · rfl
  · next h =>
    push_neg at h
    exact (abs_of_nonneg h.1).symm

theorem predict_norm_tx (rx tx : ℤ) :
    (if rx < 0 ∨ tx < 0 then |tx| else tx) = |tx| := by
  split
  · rfl
  · next h =>
    push_neg at h
    exact (abs_of_nonneg h.2).symm

theorem predict_norm_util (u : ℚ) :
    (if ¬ (0 ≤ u ∧ u ≤ 1) then max 0 (min 1 u) else u) = max 0 (min 1 u) := by
  split
  · rfl
  · next h =>
    rw [not_not] at h
    rw [min_eq_right h.2, max_eq_right h.1]

theorem predict_link_health_eq (m : ℤ → ℤ → ℚ → ℚ) (rx tx : ℤ) (u : ℚ) :
    predict_link_health m rx tx u =
      { health_score := pyRound (m (|rx|) (|tx|) (max 0 (min 1 u))) 3
        status := if m (|rx|) (|tx|) (max 0 (min 1 u)) > 7/10
                  then "healthy" else "warning"
        inputs := { rx_errors := |rx|, tx_errors := |tx|
                    utilization := max 0 (min 1 u) } } := by
  unfold predict_link_health
  rw [predict_norm_rx, predict_norm_tx, predict_norm_util]

/-- Claim C2: two calls of `predict_link_health` with identical
`rx_errors`, `tx_errors` and `utilization` arguments (against the fixed
per-session model) return an identical `health_score` and an identical
`status`. -/
theorem predict_link_health_deterministic (m : ℤ → ℤ → ℚ → ℚ)
    (rx₁ tx₁ rx₂ tx₂ : ℤ) (u₁ u₂ : ℚ)
    (hrx : rx₁ = rx₂) (htx : tx₁ = tx₂) (hu : u₁ = u₂) :
    (predict_link_health m rx₁ tx₁ u₁).health_score =
      (predict_link_health m rx₂ tx₂ u₂).health_score ∧
    (predict_link_health m rx₁ tx₁ u₁).status =
      (predict_link_health m rx₂ tx₂ u₂).status := by
  subst hrx
  subst htx
  subst hu
  exact ⟨rfl, rfl⟩

/-- Witness for claim C2 at a concrete model and concrete arguments. -/
theorem predict_link_health_deterministic_witness :
    (predict_link_health (fun _ _ c => c) 3 4 (1/2)).health_score =
      (predict_link_health (fun _ _ c => c) 3 4 (1/2)).health_score ∧
    (predict_link_health (fun _ _ c => c) 3 4 (1/2)).status =
      (predict_link_health (fun _ _ c => c) 3 4 (1/2)).status :=
  predict_link_health_deterministic (fun _ _ c => c) 3 4 3 4 (1/2) (1/2)
    rfl rfl rfl

/-- Claim C3: `predict_link_health` absolute-values negative error
counts and clamps `utilization` into `[0,1]` before scoring, echoes the
normalized values in `inputs`, and in particular the call with
`rx_errors = -2`, `tx_errors = 5`, `utilization = 1.5` is scored exactly
as the call with `rx_errors = 2`, `tx_errors = 5`, `utilization = 1.0`. -/
theorem predict_link_health_normalizes (m : ℤ → ℤ → ℚ → ℚ)
    (rx tx : ℤ) (u : ℚ) :
    (predict_link_health m rx tx u).inputs =
      { rx_errors := |rx|, tx_errors := |tx|
        utilization := max 0 (min 1 u) } ∧
    (predict_link_health m rx tx u).health_score =
      pyRound (m (|rx|) (|tx|) (max 0 (min 1 u))) 3 ∧
    predict_link_health m (-2) 5 (3/2) = predict_link_health m 2 5 1 ∧
    (predict_link_health m (-2) 5 (3/2)).inputs =
      { rx_errors := 2, tx_errors := 5, utilization := 1 } := by
  refine ⟨?_, ?_, ?_, ?_⟩
  · rw [predict_link_health_eq]
  · rw [predict_link_health_eq]
  · rw [predict_link_health_eq, predict_link_health_eq]
    norm_num
  · rw [predict_link_health_eq]
    norm_num

/-- Claim C4: whenever the model's output lies in `[0,1]` (which the
source guarantees through the final `Sigmoid` layer), the returned
`health_score` lies in `[0,1]` and the returned `status` is `"healthy"`
exactly when the unrounded score exceeds `0.7`, else `"warning"`. -/
theorem predict_link_health_range (m : ℤ → ℤ → ℚ → ℚ)
    (hm : ∀ a b c, 0 ≤ m a b c ∧ m a b c ≤ 1)
    (rx tx : ℤ) (u : ℚ) :
    0 ≤ (predict_link_health m rx tx u).health_score ∧
    (predict_link_health m rx tx u).health_score ≤ 1 ∧
    (predict_link_health m rx tx u).status =
      (if m (|rx|) (|tx|) (max 0 (min 1 u)) > 7/10
       then "healthy" else "warning") := by
  rw [predict_link_health_eq]
  obtain ⟨h0, h1⟩ := hm (|rx|) (|tx|) (max 0 (min 1 u))
  refine ⟨?_, ?_, rfl⟩
  · have h := le_pyRound (m (|rx|) (|tx|) (max 0 (min 1 u))) 3 0
      (by push_cast; nlinarith)
    simpa using h
  · have h := pyRound_le (m (|rx|) (|tx|) (max 0 (min 1 u))) 3 1000
      (by push_cast; nlinarith)
    calc pyRound (m (|rx|) (|tx|) (max 0 (min 1 u))) 3
        ≤ ((1000 : ℤ) : ℚ) / (10 ^ 3 : ℚ) := h
      _ = 1 := by norm_num

/-- Witness for claim C4 at a concrete in-range model. -/
theorem predict_link_health_range_witness :
    0 ≤ (predict_link_health (fun _ _ _ => 1/2) 1 2 (1/3)).health_score ∧
    (predict_link_health (fun _ _ _ => 1/2) 1 2 (1/3)).health_score ≤ 1 ∧
    (predict_link_health (fun _ _ _ => 1/2) 1 2 (1/3)).status =
      (if ((fun (_ _ : ℤ) (_ : ℚ) => (1:ℚ)/2) (|(1:ℤ)|) (|(2:ℤ)|)
            (max 0 (min 1 (1/3)))) > 7/10
       then "healthy" else "warning") :=
  predict_link_health_range (fun _ _ _ => 1/2)
    (fun _ _ _ => by norm_num) 1 2 (1/3)

/-- One mock remediation scenario of `remediate_link`
(`src/agents/remediation_agent.py`). -/
structure RemediationScenario where
  action : String
  reason : String
  confidence : ℚ
  estimated_downtime_seconds : ℕ
  device_type : String
deriving DecidableEq, Repr

/-- The four fixed mock scenarios of `remediate_link`, verbatim from
`src/agents/remediation_agent.py`. -/
def scenarios : List RemediationScenario :=
  [ { action := "restart_port"
      reason := "High error rate detected. Interface restart recommended."
      confidence := 85/100
      estimated_downtime_seconds := 5
      device_type := "SONiC" }
  , { action := "reapply_config"
      reason := "Configuration drift detected. Reapplying interface configuration."
      confidence := 92/100
      estimated_downtime_seconds := 2
      device_type := "Cisco" }
  , { action := "clear_counters"
      reason := "Counter overflow suspected. Clearing and monitoring."
      confidence := 78/100
      estimated_downtime_seconds := 1
      device_type := "SONiC" }
  , { action := "no_remediation_needed"
      reason := "Interface health is within acceptable parameters."
      confidence := 95/100
      estimated_downtime_seconds := 0
      device_type := "any" } ]

/-- Success payload of `remediate_link`. -/
structure RemediateOk where
  interface : String
  recommended_action : String
  reason : String
  confidence : ℚ
  estimated_downtime_seconds : ℕ
  device_type : String
  timestamp : String
  next_steps : List String
deriving DecidableEq, Repr

/-- Result of `remediate_link`: either the early-return error mapping
(whose `recommended_action` is `None`) or a scenario payload. -/
inductive RemediateResult
  | invalid (error : String) (interface : String)
      (recommended_action : Option String)
  | ok (r : RemediateOk)
deriving DecidableEq, Repr

/-- Shallow embedding of `remediate_link`
(`src/agents/remediation_agent.py`).  The `random.choice(scenarios)`
draw is modelled by the explicit index `choice`; the `isinstance` guard
is discharged by the typed embedding, so only the emptiness test of the
Python truthiness check `not interface` remains. -/
def remediate_link (choice : Fin 4) (interface : String) : RemediateResult :=
  if interface = "" then
    .invalid "Invalid interface parameter" interface none
  else
    let s := scenarios.get (Fin.cast (by decide) choice)
    .ok { interface := interface
          recommended_action := s.action
          reason := s.reason
          confidence := s.confidence
          estimated_downtime_seconds := s.estimated_downtime_seconds
          device_type := s.device_type
          timestamp := "2024-01-15T10:30:00Z"
          next_steps := [ "Review telemetry data"
                        , "Execute remediation if approved"
                        , "Monitor interface post-remediation" ] }

/-- The scenario fields carried by a `remediate_link` result, if any. -/
def selectedScenario : RemediateResult → Option RemediationScenario
  | .invalid _ _ _ => none
  | .ok r => some { action := r.recommended_action
                    reason := r.reason
                    confidence := r.confidence
                    estimated_downtime_seconds := r.estimated_downtime_seconds
                    device_type := r.device_type }

/-- Claim C5: `remediate_link` on the empty interface string returns,
for every possible random draw, the error mapping whose
`recommended_action` is `None`, and selects no remediation scenario. -/
theorem remediate_link_empty (choice : Fin 4) :
    remediate_link choice "" =
      .invalid "Invalid interface parameter" "" none ∧
    selectedScenario (remediate_link choice "") = none := by
  constructor
  · rfl
  · rfl

/-- Claim C6: on every non-empty interface, `remediate_link` returns a
payload built from one of the four fixed scenarios, echoing the
interface argument, and the chosen scenario does not depend on the
interface name. -/
theorem remediate_link_scenarios (choice : Fin 4) (interface : String)
    (h : interface ≠ "") :
    (∃ s ∈ scenarios,
      remediate_link choice interface =
        .ok { interface := interface
              recommended_action := s.action
              reason := s.reason
              confidence := s.confidence
              estimated_downtime_seconds := s.estimated_downtime_seconds
              device_type := s.device_type
              timestamp := "2024-01-15T10:30:00Z"
              next_steps := [ "Review telemetry data"
                            , "Execute remediation if approved"
                            , "Monitor interface post-remediation" ] }) ∧
    (∀ other : String, other ≠ "" →
      selectedScenario (remediate_link choice interface) =
        selectedScenario (remediate_link choice other)) := by
  constructor
  · refine ⟨scenarios.get (Fin.cast (by decide) choice), ?_, ?_⟩
    · exact List.get_mem _ _ _
    · unfold remediate_link
      rw [if_neg h]
  · intro other hother
    unfold remediate_link
    rw [if_neg h, if_neg hother]
    rfl

/-- Witness for claims C5/C6 is not needed for C5 (no hypothesis);
this one instantiates C6 at a concrete draw and interface. -/
theorem remediate_link_scenarios_witness :
    ("Ethernet12" : String) ≠ "" ∧
    ((∃ s ∈ scenarios,
      remediate_link 0 "Ethernet12" =
        .ok { interface := "Ethernet12"
              recommended_action := s.action
              reason := s.reason
              confidence := s.confidence
              estimated_downtime_seconds := s.estimated_downtime_seconds
              device_type := s.device_type
              timestamp := "2024-01-15T10:30:00Z"
              next_steps := [ "Review telemetry data"
                            , "Execute remediation if approved"
                            , "Monitor interface post-remediation" ] }) ∧
    (∀ other : String, other ≠ "" →
      selectedScenario (remediate_link 0 "Ethernet12") =
        selectedScenario (remediate_link 0 other))) :=
  ⟨by decide, remediate_link_scenarios 0 "Ethernet12" (by decide)⟩

/-- Is `pat` an initial segment of `s`? -/
def isPrefixL : List Char → List Char → Bool
  | [], _ => true
  | _ :: _, [] => false
  | a :: as, b :: bs => a == b && isPrefixL as bs

/-- Does `pat` occur as a contiguous segment of the second list? -/
def hasInfixL (pat : List Char) : List Char → Bool
  | [] => isPrefixL pat []
  | c :: rest => isPrefixL pat (c :: rest) || hasInfixL pat rest

/-- Python `pat in s` on strings: substring membership. -/
def strContains (s pat : String) : Bool := hasInfixL pat.data s.data

/-- Python `s.lower()` (ASCII case fold, which covers every string the
validator inspects). -/
def lowerStr (s : String) : String := String.mk (s.data.map Char.toLower)

/-- A parsed build-metadata JSON object, modelled as an association list
from field name to field value.  Only the values of `type` and
`platform` are ever inspected (as strings, by the SONiC substring
check); for every other field only key membership matters. -/
def BuildData := List (String × String)

/-- Python `build_data.get(k, "")`. -/
def getD (d : BuildData) (k : String) : String :=
  match List.find? (fun p => p.fst == k) d with
  | some p => p.snd
  | none => ""

/-- Python `k in build_data`. -/
def hasField (d : BuildData) (k : String) : Bool :=
  (List.find? (fun p => p.fst == k) d).isSome

/-- The result mapping of `validate_build_metadata`
(`src/agents/build_agent.py`): `device_type` starts as `None` and is
only set once a build file loads. -/
structure ValidationResult where
  valid : Bool
  device_type : Option String
  errors : List String
  warnings : List String
  metadata : BuildData

/-- The SONiC classification test of `validate_build_metadata`:
`"sonic" in build_data.get("type", "").lower() or "sonic" in
build_data.get("platform", "").lower()`. -/
def isSonicBuild (d : BuildData) : Bool :=
  strContains (lowerStr (getD d "type")) "sonic" ||
  strContains (lowerStr (getD d "platform")) "sonic"

/-- The required-field set chosen by `validate_build_metadata` for the
classified device type. -/
def requiredFieldsOf (d : BuildData) : List String :=
  if isSonicBuild d then
    ["version", "platform", "kernel_version", "build_date"]
  else
    ["vendor", "model", "os_version", "firmware_version"]

/-- Shallow embedding of `validate_build_metadata`
(`src/agents/build_agent.py`).  The `load_build_json` call is modelled
by the `build_data` argument: `none` stands for a missing or unparsable
file (the loader returns `None` there), `some d` for the parsed JSON
object. -/
def validate_build_metadata (build_json_path : String)
    (build_data : Option BuildData) : ValidationResult :=
  match build_data with
  | none =>
      { valid := false
        device_type := none
        errors := ["Failed to load build file: " ++ build_json_path]
        warnings := []
        metadata := [] }
  | some d =>
      let device_type := if isSonicBuild d then "SONiC" else "non-SONiC"
      let missing := (requiredFieldsOf d).filter (fun f => ! hasField d f)
      let errors :=
        if missing.isEmpty then []
        else ["Missing required fields: " ++ String.intercalate ", " missing]
      let warnings :=
        ((["serial_number", "mac_address", "hostname"]).filter
          (fun f => ! hasField d f)).map
          (fun f => "Recommended field missing: " ++ f)
      { valid := missing.isEmpty
        device_type := some device_type
        errors := errors
        warnings := warnings
        metadata := d }

/-- The parsed content of the build file claim C1 speaks about. -/
def c1BuildData : BuildData :=
  [("platform", "x86_64-arista_7170_64c"), ("version", "202311.1")]

/-- Counterexample to claim C1 as stated: on a file whose parsed content
is exactly `{"platform": "x86_64-arista_7170_64c", "version":
"202311.1"}`, `validate_build_metadata` does NOT classify the device as
SONiC (the string `"sonic"` occurs in neither the absent `type` field
nor the platform string) and does not report `kernel_version` and
`build_date` as the missing fields. -/
theorem validate_build_metadata_c1_refuted :
    ¬ ((validate_build_metadata "build.json" (some c1BuildData)).device_type
          = some "SONiC" ∧
       (validate_build_metadata "build.json" (some c1BuildData)).valid
          = false ∧
       (validate_build_metadata "build.json" (some c1BuildData)).errors
          = ["Missing required fields: kernel_version, build_date"]) := by
  intro h
  have h1 := h.1
  have hne : (validate_build_metadata "build.json" (some c1BuildData)).device_type
      = some "non-SONiC" := by decide
  rw [hne] at h1
  exact absurd h1 (by decide)

/-- Claim C1 as amended: on that file the device is classified
`non-SONiC` (no `sonic` substring occurs in its `type` or `platform`),
and validation fails with a single error listing exactly the four
missing non-SONiC required fields `vendor`, `model`, `os_version`,
`firmware_version`. -/
theorem validate_build_metadata_c1_amended :
    (validate_build_metadata "build.json" (some c1BuildData)).device_type
        = some "non-SONiC" ∧
    (validate_build_metadata "build.json" (some c1BuildData)).valid
        = false ∧
    (validate_build_metadata "build.json" (some c1BuildData)).errors
        = ["Missing required fields: vendor, model, os_version, firmware_version"] := by
  refine ⟨by decide, by decide, by decide⟩

/-- A list has no element failing `p` exactly when all its elements
satisfy `p`. -/
theorem filter_not_isEmpty_eq_all (p : String → Bool) (l : List String) :
    (l.filter (fun f => ! p f)).isEmpty = l.all p := by
  induction l with
  | nil => rfl
  | cons a t ih =>
    cases hpa : p a
    · simp [List.filter_cons, hpa, List.all_cons]
    · simp [List.filter_cons, hpa, List.all_cons, ih]

/-- Claim C10: `validate_build_metadata` returns `valid = true` exactly
when its `errors` list is empty, and `valid` is determined by the
presence of the classified required fields alone — the recommended
fields that feed `warnings` never influence it. -/
theorem validate_build_metadata_valid_iff (build_json_path : String)
    (build_data : Option BuildData) (d : BuildData) :
    ((validate_build_metadata build_json_path build_data).valid = true ↔
      (validate_build_metadata build_json_path build_data).errors = []) ∧
    ((validate_build_metadata build_json_path (some d)).valid =
      (requiredFieldsOf d).all (fun f => hasField d f)) := by
  constructor
  · cases build_data with
    | none =>
        simp [validate_build_metadata]
    | some d₀ =>
        simp only [validate_build_metadata]
        by_cases hm :
            ((requiredFieldsOf d₀).filter (fun f => ! hasField d₀ f)).isEmpty
              = true
        · simp [hm]
        · simp [hm]
  · simp only [validate_build_metadata]
    exact filter_not_isEmpty_eq_all _ _

/-- Support model of Python `random.randint(lo, hi)` (both endpoints
inclusive): every draw is `lo` plus a remainder below `hi + 1 - lo`,
and every such value is a possible draw. -/
def pyRandint (lo hi seed : ℕ) : ℕ := lo + seed % (hi + 1 - lo)

/-- Support model of Python `random.uniform(a, b)`: `a + (b - a) * t`
with `t` the underlying `random.random()` draw in `[0, 1)`. -/
def pyUniform (a b t : ℚ) : ℚ := a + (b - a) * t

/-- The telemetry mapping produced by `get_port_telemetry`
(`src/agents/telemetry_agent.py`). -/
structure Telemetry where
  switch : String
  interface : String
  rx_bytes : ℕ
  tx_bytes : ℕ
  rx_errors : ℕ
  tx_errors : ℕ
  utilization : ℚ
deriving DecidableEq, Repr

/-- Shallow embedding of `get_port_telemetry`
(`src/agents/telemetry_agent.py`), with one explicit seed per
`random.randint` draw and `t` the `random.random()` draw behind
`random.uniform(0.2, 0.95)`. -/
def get_port_telemetry (s₁ s₂ s₃ s₄ : ℕ) (t : ℚ) : Telemetry :=
  { switch := "sonic-leaf-01"
    interface := "Ethernet12"
    rx_bytes := pyRandint 10000 10000000 s₁
    tx_bytes := pyRandint 10000 10000000 s₂
    rx_errors := pyRandint 0 10 s₃
    tx_errors := pyRandint 0 10 s₄
    utilization := pyRound (pyUniform (2/10) (95/100) t) 2 }

theorem pyRandint_bounds (lo hi seed : ℕ) (h : lo ≤ hi) :
    lo ≤ pyRandint lo hi seed ∧ pyRandint lo hi seed ≤ hi := by
  unfold pyRandint
  have hpos : 0 < hi + 1 - lo := by omega
  have hmod : seed % (hi + 1 - lo) < hi + 1 - lo := Nat.mod_lt _ hpos
  omega

/-- Claim C8: every draw of `get_port_telemetry` keeps `rx_bytes` and
`tx_bytes` in `[10000, 10000000]`, `rx_errors` and `tx_errors` in
`[0, 10]`, and `utilization` in `[0.20, 0.95]`. -/
theorem get_port_telemetry_bounds (s₁ s₂ s₃ s₄ : ℕ) (t : ℚ)
    (ht0 : 0 ≤ t) (ht1 : t < 1) :
    10000 ≤ (get_port_telemetry s₁ s₂ s₃ s₄ t).rx_bytes ∧
    (get_port_telemetry s₁ s₂ s₃ s₄ t).rx_bytes ≤ 10000000 ∧
    10000 ≤ (get_port_telemetry s₁ s₂ s₃ s₄ t).tx_bytes ∧
    (get_port_telemetry s₁ s₂ s₃ s₄ t).tx_bytes ≤ 10000000 ∧
    (get_port_telemetry s₁ s₂ s₃ s₄ t).rx_errors ≤ 10 ∧
    (get_port_telemetry s₁ s₂ s₃ s₄ t).tx_errors ≤ 10 ∧
    2/10 ≤ (get_port_telemetry s₁ s₂ s₃ s₄ t).utilization ∧
    (get_port_telemetry s₁ s₂ s₃ s₄ t).utilization ≤ 95/100 := by
  unfold get_port_telemetry
  dsimp only
  obtain ⟨hb1, hb2⟩ := pyRandint_bounds 10000 10000000 s₁ (by omega)
  obtain ⟨hb3, hb4⟩ := pyRandint_bounds 10000 10000000 s₂ (by omega)
  obtain ⟨_, hb6⟩ := pyRandint_bounds 0 10 s₃ (by omega)
  obtain ⟨_, hb8⟩ := pyRandint_bounds 0 10 s₄ (by omega)
  refine ⟨hb1, hb2, hb3, hb4, hb6, hb8, ?_, ?_⟩
  · have h := le_pyRound (pyUniform (2/10) (95/100) t) 2 20
      (by unfold pyUniform; push_cast; nlinarith)
    calc (2/10 : ℚ) = ((20 : ℤ) : ℚ) / (10 ^ 2 : ℚ) := by norm_num
      _ ≤ _ := h
  · have h := pyRound_le (pyUniform (2/10) (95/100) t) 2 95
      (by unfold pyUniform; push_cast; nlinarith)
    calc pyRound (pyUniform (2/10) (95/100) t) 2
        ≤ ((95 : ℤ) : ℚ) / (10 ^ 2 : ℚ) := h
      _ = 95/100 := by norm_num

/-- Witness for claim C8 at concrete seeds and a concrete uniform
draw. -/
theorem get_port_telemetry_bounds_witness :
    (0 ≤ (1/2 : ℚ) ∧ (1/2 : ℚ) < 1) ∧
    (10000 ≤ (get_port_telemetry 0 1 2 3 (1/2)).rx_bytes ∧
     (get_port_telemetry 0 1 2 3 (1/2)).rx_bytes ≤ 10000000 ∧
     10000 ≤ (get_port_telemetry 0 1 2 3 (1/2)).tx_bytes ∧
     (get_port_telemetry 0 1 2 3 (1/2)).tx_bytes ≤ 10000000 ∧
     (get_port_telemetry 0 1 2 3 (1/2)).rx_errors ≤ 10 ∧
     (get_port_telemetry 0 1 2 3 (1/2)).tx_errors ≤ 10 ∧
     2/10 ≤ (get_port_telemetry 0 1 2 3 (1/2)).utilization ∧
     (get_port_telemetry 0 1 2 3 (1/2)).utilization ≤ 95/100) :=
  ⟨⟨by norm_num, by norm_num⟩,
   get_port_telemetry_bounds 0 1 2 3 (1/2) (by norm_num) (by norm_num)⟩

/-- One interface entry of a topology device
(`src/utils/topology_builder.py`). -/
structure TopoInterface where
  name : String
  status : String
  speed : String
deriving DecidableEq, Repr

/-- One device of the mock multi-vendor topology
(`src/utils/topology_builder.py`). -/
structure TopoDevice where
  id : String
  type : String
  vendor : String
  model : String
  role : String
  status : String
  interfaces : List TopoInterface
deriving DecidableEq, Repr

/-- One link of the mock multi-vendor topology
(`src/utils/topology_builder.py`). -/
structure TopoLink where
  source : String
  source_port : String
  target : String
  target_port : String
  bandwidth : String
  status : String
deriving DecidableEq, Repr

/-- The derived statistics block of the topology
(`src/utils/topology_builder.py`). -/
structure TopoStatistics where
  total_devices : ℕ
  sonic_devices : ℕ
  non_sonic_devices : ℕ
  total_links : ℕ
  active_links : ℕ
deriving DecidableEq, Repr

/-- The topology mapping returned by `build_multi_vendor_topology`
(`src/utils/topology_builder.py`), which backs the
`get_network_topology` handler. -/
structure TopologyResult where
  timestamp : String
  devices : List TopoDevice
  links : List TopoLink
  statistics : TopoStatistics
deriving DecidableEq, Repr

/-- The device list of `build_multi_vendor_topology`, verbatim from
`src/utils/topology_builder.py`. -/
def topologyDevices : List TopoDevice :=
  [ { id := "sonic-leaf-01", type := "SONiC", vendor := "Dell"
      model := "S5248F-ON", role := "leaf", status := "active"
      interfaces :=
        [ { name := "Ethernet12", status := "up", speed := "25G" }
        , { name := "Ethernet24", status := "up", speed := "100G" } ] }
  , { id := "sonic-spine-01", type := "SONiC", vendor := "Arista"
      model := "DCS-7280SR3", role := "spine", status := "active"
      interfaces :=
        [ { name := "Ethernet1/1", status := "up", speed := "100G" }
        , { name := "Ethernet1/2", status := "up", speed := "100G" } ] }
  , { id := "cisco-core-01", type := "Cisco", vendor := "Cisco"
      model := "Nexus 9000", role := "core", status := "active"
      interfaces :=
        [ { name := "GigabitEthernet0/1", status := "up", speed := "10G" }
        , { name := "GigabitEthernet0/2", status := "up", speed := "10G" } ] }
  , { id := "fortigate-fw-01", type := "FortiGate", vendor := "Fortinet"
      model := "FortiGate 100F", role := "firewall", status := "active"
      interfaces :=
        [ { name := "port1", status := "up", speed := "1G" }
        , { name := "port2", status := "up", speed := "1G" } ] }
  , { id := "edgecore-spine-02", type := "SONiC", vendor := "EdgeCore"
      model := "AS7326-56X", role := "spine", status := "active"
      interfaces :=
        [ { name := "Ethernet1", status := "up", speed := "100G" }
        , { name := "Ethernet2", status := "up", speed := "100G" } ] } ]

/-- The link list of `build_multi_vendor_topology`, verbatim from
`src/utils/topology_builder.py`. -/
def topologyLinks : List TopoLink :=
  [ { source := "sonic-leaf-01", source_port := "Ethernet24"
      target := "sonic-spine-01", target_port := "Ethernet1/1"
      bandwidth := "100G", status := "up" }
  , { source := "cisco-core-01", source_port := "GigabitEthernet0/1"
      target := "sonic-spine-01", target_port := "Ethernet1/2"
      bandwidth := "10G", status := "up" }
  , { source := "fortigate-fw-01", source_port := "port1"
      target := "cisco-core-01", target_port := "GigabitEthernet0/2"
      bandwidth := "1G", status := "up" }
  , { source := "edgecore-spine-02", source_port := "Ethernet1"
      target := "sonic-leaf-01", target_port := "Ethernet12"
      bandwidth := "25G", status := "up" } ]

/-- Shallow embedding of `build_multi_vendor_topology`
(`src/utils/topology_builder.py`): the fixed device and link lists plus
the statistics derived from them. -/
def build_multi_vendor_topology : TopologyResult :=
  let sonic := (topologyDevices.filter (fun d => d.type == "SONiC")).length
  { timestamp := "2024-01-15T10:30:00Z"
    devices := topologyDevices
    links := topologyLinks
    statistics :=
      { total_devices := topologyDevices.length
        sonic_devices := sonic
        non_sonic_devices := topologyDevices.length - sonic
        total_links := topologyLinks.length
        active_links :=
          (topologyLinks.filter (fun l => l.status == "up")).length } }

/-- Output of the `get_network_topology` tool wrapper of
`src/mcp_server.py`: the handler result, or the `except` branch's error
mapping whose `devices` and `links` lists and `statistics` mapping are
empty. -/
inductive TopologyToolOut
  | ok (r : TopologyResult)
  | failed (error : String) (message : String)
      (devices : List TopoDevice) (links : List TopoLink)
      (statistics : List (String × ℕ))
deriving DecidableEq, Repr

/-- Shallow embedding of the `get_network_topology` tool wrapper of
`src/mcp_server.py`. -/
def get_network_topology_tool (h : Except String TopologyResult) :
    TopologyToolOut :=
  match h with
  | .ok r => .ok r
  | .error e => .failed "Topology generation failed" e [] [] []

/-- Output of the `predict_link_health` tool wrapper of
`src/mcp_server.py`: the handler result, or the `except` branch's error
mapping. -/
inductive PredictToolOut
  | ok (r : PredictResult)
  | failed (error : String) (message : String)
      (health_score : Option ℚ) (status : String)
deriving DecidableEq, Repr

/-- Shallow embedding of the `predict_link_health` tool wrapper of
`src/mcp_server.py`: the handler call is a computation that either
returns a result or raises (an `Except.error` carrying `str(e)`). -/
def predict_link_health_tool (h : Except String PredictResult) :
    PredictToolOut :=
  match h with
  | .ok r => .ok r
  | .error e => .failed "Health prediction failed" e none "error"

/-- Output of the `validate_build_metadata` tool wrapper of
`src/mcp_server.py`. -/
inductive ValidateToolOut
  | ok (r : ValidationResult)
  | failed (valid : Bool) (error : String) (message : String)
      (errors : List String) (warnings : List String)

/-- Shallow embedding of the `validate_build_metadata` tool wrapper of
`src/mcp_server.py`. -/
def validate_build_metadata_tool (h : Except String ValidationResult) :
    ValidateToolOut :=
  match h with
  | .ok r => .ok r
  | .error e => .failed false "Validation failed" e [e] []

/-- Output of the `get_port_telemetry` tool wrapper of
`src/mcp_server.py`. -/
inductive TelemetryToolOut
  | ok (r : Telemetry)
  | failed (error : String) (message : String)
deriving DecidableEq, Repr

/-- Shallow embedding of the `get_port_telemetry` tool wrapper of
`src/mcp_server.py`. -/
def get_port_telemetry_tool (h : Except String Telemetry) :
    TelemetryToolOut :=
  match h with
  | .ok r => .ok r
  | .error e => .failed "Telemetry collection failed" e

/-- Output of the `remediate_link` tool wrapper of `src/mcp_server.py`. -/
inductive RemediateToolOut
  | ok (r : RemediateResult)
  | failed (error : String) (message : String) (interface : String)
      (recommended_action : Option String)
deriving DecidableEq, Repr

/-- Shallow embedding of the `remediate_link` tool wrapper of
`src/mcp_server.py`. -/
def remediate_link_tool (interface : String)
    (h : Except String RemediateResult) : RemediateToolOut :=
  match h with
  | .ok r => .ok r
  | .error e => .failed "Remediation analysis failed" e interface none

/-- Claim C7: whenever a tool handler raises (exception detail `e`),
the corresponding wrapper of `src/mcp_server.py` returns a mapping
carrying an `error` summary together with `message = e`, for each of
the five registered tools — the exception never propagates, since
every wrapper is a total function into its output type. -/
theorem tool_wrappers_catch (e : String) (interface : String) :
    predict_link_health_tool (.error e) =
      .failed "Health prediction failed" e none "error" ∧
    validate_build_metadata_tool (.error e) =
      .failed false "Validation failed" e [e] [] ∧
    get_port_telemetry_tool (.error e) =
      .failed "Telemetry collection failed" e ∧
    get_network_topology_tool (.error e) =
      .failed "Topology generation failed" e [] [] [] ∧
    remediate_link_tool interface (.error e) =
      .failed "Remediation analysis failed" e interface none :=
  ⟨rfl, rfl, rfl, rfl, rfl⟩

/-- Modelled from the spec: the protocol session phase of the
Dispatcher state machine (§4.2) — the dispatch layer itself lives in
the external MCP library and is not present under `src/`.  `preInit`
is the spec's `Uninitialized`, `handshaking` its `Initializing` (an
`initialize` request was received but the `notifications/initialized`
follow-up has not arrived), `ready` its `Ready`, `closed` its
`Closed`. -/
inductive Phase
  | preInit
  | handshaking
  | ready
  | closed
deriving DecidableEq, Repr

/-- Modelled from the spec: the inbound protocol messages the
Dispatcher routes (§4.2, §6).  `handshakeReq` is the `initialize`
request, `handshakeDoneNotif` the `notifications/initialized`
notification, `toolsList` a `tools/list` request and `toolsCall` a
`tools/call` request naming a tool. -/
inductive ReqMsg
  | handshakeReq
  | handshakeDoneNotif
  | toolsList
  | toolsCall (name : String)
deriving DecidableEq, Repr

/-- Modelled from the spec: the protocol-level error kinds of §7. -/
inductive ProtoError
  | notReady
  | toolNotFound
deriving DecidableEq, Repr

/-- Modelled from the spec: the outcome the Dispatcher produces for one
routed message. -/
inductive DispatchOutcome
  | accepted
  | rejected (e : ProtoError)
deriving DecidableEq, Repr

/-- Modelled from the spec: one step of the Dispatcher state machine of
§4.2, routing a message in a session phase.  Returns the outcome, the
next phase, and the list of tool handlers invoked during the step (the
observable side effects).  Before the handshake completes only the
`initialize` exchange is accepted and `tools/list` / `tools/call` are
rejected with `NotReady`; in `Ready`, `tools/call` invokes the named
handler when it is registered and fails with `ToolNotFound` otherwise. -/
def dispatch (tools : List String) (phase : Phase) (req : ReqMsg) :
    DispatchOutcome × Phase × List String :=
  match phase, req with
  | .preInit, .handshakeReq => (.accepted, .handshaking, [])
  | .preInit, .handshakeDoneNotif => (.accepted, .preInit, [])
  | .preInit, .toolsList => (.rejected .notReady, .preInit, [])
  | .preInit, .toolsCall _ => (.rejected .notReady, .preInit, [])
  | .handshaking, .handshakeReq => (.accepted, .handshaking, [])
  | .handshaking, .handshakeDoneNotif => (.accepted, .ready, [])
  | .handshaking, .toolsList => (.rejected .notReady, .handshaking, [])
  | .handshaking, .toolsCall _ => (.rejected .notReady, .handshaking, [])
  | .ready, .handshakeReq => (.accepted, .ready, [])
  | .ready, .handshakeDoneNotif => (.accepted, .ready, [])
  | .ready, .toolsList => (.accepted, .ready, [])
  | .ready, .toolsCall n =>
      if tools.contains n then (.accepted, .ready, [n])
      else (.rejected .toolNotFound, .ready, [])
  | .closed, _ => (.rejected .notReady, .closed, [])

/-- Claim C9: a `tools/call` received before the initialize handshake
completes (phase `Uninitialized` or `Initializing`) is rejected with
the `NotReady` protocol error, the phase is unchanged, and no tool
handler is invoked. -/
theorem dispatch_toolsCall_before_ready (tools : List String)
    (phase : Phase) (name : String)
    (h : phase = Phase.preInit ∨ phase = Phase.handshaking) :
    dispatch tools phase (.toolsCall name) =
      (.rejected .notReady, phase, []) := by
  rcases h with h | h
  · subst h
    rfl
  · subst h
    rfl

/-- Witness for claim C9 with a registered tool name, showing the
handler is still not invoked. -/
theorem dispatch_toolsCall_before_ready_witness :
    (Phase.preInit = Phase.preInit ∨ Phase.preInit = Phase.handshaking) ∧
    dispatch ["predict_link_health"] Phase.preInit
        (.toolsCall "predict_link_health") =
      (.rejected .notReady, Phase.preInit, []) :=
  ⟨Or.inl rfl,
   dispatch_toolsCall_before_ready ["predict_link_health"] Phase.preInit
     "predict_link_health" (Or.inl rfl)⟩

end Sandbox
